import Mathlib

/-!
Shallow embedding of the RescueLink WebSocket relay server
(src/unnamed/part_002, the authoritative variant; src/server.ts agrees on
every handler modelled here).

Modelling conventions:
  - `Date.now()` is an explicit `now : Nat` parameter (milliseconds).
    Alert ids are `Date.now().toString()` in the source; since decimal
    string rendering of a natural number is injective and ids are only
    ever compared for equality, ids are modelled as the `Nat` itself.
    `new Date().toISOString()` timestamps are likewise injective images
    of the millisecond clock and are modelled as the `Nat` itself.
  - JS `undefined`/`null` field values are `Option.none`; `x || d` on
    strings (falsy = absent or empty) is `jsOr`; `x || null` is `jsOrNull`.
  - The `activeUsers` JS `Record` is an association list whose key set is
    duplicate-free for every state the program can build; the JS property
    write `activeUsers[userId] = v` with `userId === undefined` coerces
    the key to the string "undefined" (`keyOfUser`).
  - A frame that `JSON.parse` rejects throws before any mutation and is
    caught by the per-message `try/catch`, so it leaves the state
    untouched and sends nothing (`ClientMsg.unparseable`); a parsed
    message whose `type` matches no `if` branch likewise does nothing
    (`ClientMsg.unrecognized`).
  - The float literals `[12.9750, 77.5900]` are only stored and copied,
    never arithmetized, so they are modelled as exact rationals.
-/

/-- JS `x || d` for string-valued fields: absent and empty are falsy. -/
def jsOr (v : Option String) (d : String) : String :=
  match v with
  | some s => if s = "" then d else s
  | none => d

/-- JS `x || null` for string-valued fields. -/
def jsOrNull (v : Option String) : Option String :=
  match v with
  | some s => if s = "" then none else some s
  | none => none

/-- One alert object as built by the NEW_ALERT handler and mutated by the
ACCEPT/RESOLVE/REJECT/LOCATION_UPDATE handlers. Fields the JS object does
not carry yet (acceptedAt, resolved, ...) are `none`/`false`. -/
structure Alert where
  id : Nat
  timestamp : Nat
  status : String
  location : Option String
  fullAddress : Option String
  userId : String
  transcript : String
  aiReasoning : String
  accepted : Bool
  acceptedAt : Option Nat
  videoData : Option String
  videoAnalysis : Option String
  resolved : Bool
  resolvedAt : Option Nat
  resolutionType : Option String
deriving DecidableEq, Repr

/-- Value of one `activeUsers` entry: `{ location, fullAddress, lastSeen }`. -/
structure ActiveUser where
  location : Option String
  fullAddress : Option String
  lastSeen : Nat
deriving DecidableEq, Repr

/-- `disasterMode = { active, type, timestamp }`. -/
structure DisasterMode where
  active : Bool
  type' : Option String
  timestamp : Option Nat
deriving DecidableEq, Repr

/-- `trafficSimulation` flag record. -/
structure TrafficSim where
  active : Bool
  showHeatmap : Bool
  showReroutes : Bool
  showAmbulance : Bool
  accidentLocation : Rat × Rat
deriving DecidableEq, Repr

/-- Partial payload of UPDATE_TRAFFIC_SIM; the JS spread
`{...trafficSimulation, ...message.payload}` keeps a field unless the
payload carries it. -/
structure TrafficSimPatch where
  active : Option Bool
  showHeatmap : Option Bool
  showReroutes : Option Bool
  showAmbulance : Option Bool
  accidentLocation : Option (Rat × Rat)
deriving DecidableEq, Repr

/-- NEW_ALERT payload; every field may be absent. -/
structure NewAlertPayload where
  urgency : Option String
  location : Option String
  fullAddress : Option String
  userId : Option String
  transcript : Option String
  aiReasoning : Option String
  videoData : Option String
  videoAnalysis : Option String
deriving DecidableEq, Repr

/-- Payload of ACCEPT_ALERT / RESOLVE_ALERT / REJECT_ALERT: `payload.id`,
possibly absent (`a.id === undefined` matches nothing). -/
structure IdPayload where
  id : Option Nat
deriving DecidableEq, Repr

/-- LOCATION_UPDATE payload after `const { userId, location, fullAddress }
= message.payload`. -/
structure LocationPayload where
  userId : Option String
  location : Option String
  fullAddress : Option String
deriving DecidableEq, Repr

/-- Inbound frames, after JSON parsing and type dispatch. -/
inductive ClientMsg
  | newAlert (p : NewAlertPayload)
  | acceptAlert (p : IdPayload)
  | resolveAlert (p : IdPayload)
  | rejectAlert (p : IdPayload)
  | locationUpdate (p : LocationPayload)
  | activateDisaster (dtype : Option String)
  | deactivateDisaster
  | updateTrafficSim (p : TrafficSimPatch)
  | unparseable
  | unrecognized
deriving DecidableEq, Repr

/-- Outbound messages. `alertUpdated` carries `alerts.find(...)`, which is
`undefined` (here `none`) when no alert matches. -/
inductive ServerMsg
  | initData (alerts : List Alert) (history : List Alert)
      (activeUsers : List (String × ActiveUser))
      (disasterMode : DisasterMode) (trafficSim : TrafficSim)
  | alertCreated (a : Alert)
  | alertUpdated (a : Option Alert)
  | alertResolved (alertId : Option Nat) (resolvedAlert : Alert)
  | userLocationUpdated (userId : Option String) (location : Option String)
      (fullAddress : Option String) (activeUsers : List (String × ActiveUser))
  | disasterActivated (dm : DisasterMode)
  | disasterDeactivated (dm : DisasterMode)
  | trafficSimUpdated (ts : TrafficSim)
deriving DecidableEq, Repr

/-- The shared in-memory store. -/
structure ServerState where
  alerts : List Alert
  history : List Alert
  activeUsers : List (String × ActiveUser)
  disasterMode : DisasterMode
  trafficSim : TrafficSim
deriving DecidableEq, Repr

/-- Store contents at process start. -/
def initState : ServerState :=
  { alerts := []
    history := []
    activeUsers := []
    disasterMode := { active := false, type' := none, timestamp := none }
    trafficSim :=
      { active := false, showHeatmap := true, showReroutes := true,
        showAmbulance := true, accidentLocation := ((12.975 : Rat), (77.59 : Rat)) } }

/-- The object literal built by the NEW_ALERT handler. -/
def mkNewAlert (now : Nat) (p : NewAlertPayload) : Alert :=
  { id := now
    timestamp := now
    status := jsOr p.urgency "Critical"
    location := some (jsOr p.location "Unknown Location")
    fullAddress := jsOrNull p.fullAddress
    userId := jsOr p.userId "Anonymous"
    transcript := jsOr p.transcript ""
    aiReasoning := jsOr p.aiReasoning ""
    accepted := false
    acceptedAt := none
    videoData := jsOrNull p.videoData
    videoAnalysis := jsOrNull p.videoAnalysis
    resolved := false
    resolvedAt := none
    resolutionType := none }

/-- JS property-key coercion: writing `activeUsers[userId]` with
`userId === undefined` uses the key "undefined". -/
def keyOfUser : Option String → String
  | some u => u
  | none => "undefined"

/-- `a.userId === userId` where the right side may be `undefined`
(strict equality with `undefined` is false; alert userIds are always
strings by construction). -/
def matchesUser (aUserId : String) (pUserId : Option String) : Bool :=
  match pUserId with
  | some u => aUserId == u
  | none => false

/-- `activeUsers[k] = v` on a JS `Record`: replace in place if the key
exists, else append. -/
def upsert (m : List (String × ActiveUser)) (k : String) (v : ActiveUser) :
    List (String × ActiveUser) :=
  if m.any (fun e => e.1 == k) then
    m.map (fun e => if e.1 == k then (k, v) else e)
  else
    m ++ [(k, v)]

/-- Reading `activeUsers[k]`. -/
def lookupKey (m : List (String × ActiveUser)) (k : String) : Option ActiveUser :=
  (m.find? (fun e => e.1 == k)).map Prod.snd

/-- Number of entries stored under key `k`. -/
def countKey (m : List (String × ActiveUser)) (k : String) : Nat :=
  m.countP (fun e => e.1 == k)

/-- The key set of the `activeUsers` record. -/
def userKeys (m : List (String × ActiveUser)) : List String :=
  m.map Prod.fst

/-- `{...trafficSimulation, ...message.payload}`. -/
def mergeTraffic (t : TrafficSim) (p : TrafficSimPatch) : TrafficSim :=
  { active := p.active.getD t.active
    showHeatmap := p.showHeatmap.getD t.showHeatmap
    showReroutes := p.showReroutes.getD t.showReroutes
    showAmbulance := p.showAmbulance.getD t.showAmbulance
    accidentLocation := p.accidentLocation.getD t.accidentLocation }

/-- The per-message handler: one inbound message, the current clock, the
current store; returns the mutated store and the broadcast messages, in
order. Mirrors the `ws.on("message", ...)` body of src/unnamed/part_002. -/
def handleMessage (s : ServerState) (now : Nat) : ClientMsg → ServerState × List ServerMsg
  | .newAlert p =>
      let newAlert := mkNewAlert now p
      ({ s with alerts := s.alerts ++ [newAlert] }, [ServerMsg.alertCreated newAlert])
  | .acceptAlert p =>
      let alerts' := s.alerts.map (fun a =>
        if some a.id == p.id then { a with accepted := true, acceptedAt := some now } else a)
      ({ s with alerts := alerts' },
       [ServerMsg.alertUpdated (alerts'.find? (fun a => some a.id == p.id))])
  | .resolveAlert p =>
      match s.alerts.find? (fun a => some a.id == p.id) with
      | none => (s, [])
      | some a =>
          let resolvedAlert :=
            { a with resolved := true, resolvedAt := some now,
                     resolutionType := some "Resolved" }
          ({ s with alerts := s.alerts.eraseP (fun a => some a.id == p.id),
                    history := s.history ++ [resolvedAlert] },
           [ServerMsg.alertResolved p.id resolvedAlert])
  | .rejectAlert p =>
      match s.alerts.find? (fun a => some a.id == p.id) with
      | none => (s, [])
      | some a =>
          let rejectedAlert :=
            { a with resolved := true, resolvedAt := some now,
                     resolutionType := some "Rejected" }
          ({ s with alerts := s.alerts.eraseP (fun a => some a.id == p.id),
                    history := s.history ++ [rejectedAlert] },
           [ServerMsg.alertResolved p.id rejectedAlert])
  | .locationUpdate p =>
      let activeUsers' := upsert s.activeUsers (keyOfUser p.userId)
        { location := p.location, fullAddress := p.fullAddress, lastSeen := now }
      let alerts' := s.alerts.map (fun a =>
        if matchesUser a.userId p.userId then
          { a with location := p.location, fullAddress := p.fullAddress }
        else a)
      ({ s with activeUsers := activeUsers', alerts := alerts' },
       [ServerMsg.userLocationUpdated p.userId p.location p.fullAddress activeUsers'])
  | .activateDisaster dtype =>
      let dm : DisasterMode := { active := true, type' := dtype, timestamp := some now }
      ({ s with disasterMode := dm }, [ServerMsg.disasterActivated dm])
  | .deactivateDisaster =>
      let dm : DisasterMode := { active := false, type' := none, timestamp := none }
      ({ s with disasterMode := dm }, [ServerMsg.disasterDeactivated dm])
  | .updateTrafficSim p =>
      let ts := mergeTraffic s.trafficSim p
      ({ s with trafficSim := ts }, [ServerMsg.trafficSimUpdated ts])
  | .unparseable => (s, [])
  | .unrecognized => (s, [])

/-- Store after processing one message. -/
def stepState (s : ServerState) (now : Nat) (m : ClientMsg) : ServerState :=
  (handleMessage s now m).1

/-- Broadcast list produced by one message. -/
def stepOut (s : ServerState) (now : Nat) (m : ClientMsg) : List ServerMsg :=
  (handleMessage s now m).2

/-- One WebSocket connection as the fan-out sees it. -/
structure Conn where
  cid : Nat
  isOpen : Bool
deriving DecidableEq, Repr

/-- `wss.clients.forEach(c => { if (c.readyState === OPEN) c.send(m) })`,
applied to each outbound message in order. -/
def fanout (conns : List Conn) (msgs : List ServerMsg) : List (Nat × ServerMsg) :=
  msgs.foldr
    (fun msg acc => ((conns.filter (fun c => c.isOpen)).map (fun c => (c.cid, msg))) ++ acc)
    []

/-- The INIT_DATA snapshot built from the current store. -/
def initDataMsg (s : ServerState) : ServerMsg :=
  ServerMsg.initData s.alerts s.history s.activeUsers s.disasterMode s.trafficSim

/-- The `wss.on("connection", ...)` body: the messages `ws.send`-t to the
new connection only, and the messages broadcast to everyone (none). The
store is not touched. -/
def handleConnection (s : ServerState) : List ServerMsg × List ServerMsg :=
  ([initDataMsg s], [])

/-- Ids of a list of alerts. -/
def idsA (l : List Alert) : List Nat :=
  l.map Alert.id

/-- Every id present anywhere in the store. -/
def allIds (s : ServerState) : List Nat :=
  idsA s.alerts ++ idsA s.history

/-- States the process can build: empty at start, then one message at a
time with an arbitrary clock reading. -/
inductive Reachable : ServerState → Prop
  | init : Reachable initState
  | step {s : ServerState} (now : Nat) (m : ClientMsg) :
      Reachable s → Reachable (stepState s now m)

/-- Reachability restricted to runs in which every alert creation uses a
clock value whose id is not already present in the store — i.e. no two
alerts are created during the same clock millisecond. -/
inductive ReachableFresh : ServerState → Prop
  | init : ReachableFresh initState
  | step {s : ServerState} (now : Nat) (m : ClientMsg) :
      ReachableFresh s →
      (∀ p, m = ClientMsg.newAlert p → now ∉ allIds s) →
      ReachableFresh (stepState s now m)

/-! ### List helper lemmas -/

theorem idsA_map_preserve (f : Alert → Alert) (hf : ∀ a, (f a).id = a.id)
    (l : List Alert) : idsA (l.map f) = idsA l := by
  unfold idsA
  rw [List.map_map]
  exact List.map_congr_left (fun a _ => hf a)

theorem find?_eq_some_split {α : Type} (p : α → Bool) (l : List α) (a : α)
    (h : l.find? p = some a) :
    ∃ l₁ l₂, l = l₁ ++ a :: l₂ ∧ (∀ b ∈ l₁, p b = false) ∧ p a = true ∧
      l.eraseP p = l₁ ++ l₂ := by
  induction l with
  | nil => simp at h
  | cons b t ih =>
    by_cases hb : p b
    · rw [List.find?_cons_of_pos t hb] at h
      have hba : b = a := by injection h
      subst hba
      exact ⟨[], t, by simp, by simp, hb, by simp [List.eraseP_cons_of_pos hb]⟩
    · rw [List.find?_cons_of_neg t hb] at h
      obtain ⟨l₁, l₂, h1, h2, h3, h4⟩ := ih h
      refine ⟨b :: l₁, l₂, by simp [h1], ?_, h3,
        by simp [List.eraseP_cons_of_neg hb, h4]⟩
      intro c hc
      rcases List.mem_cons.mp hc with hcb | hc2
      · subst hcb; simpa using hb
      · exact h2 c hc2

theorem perm_move_to_back {α : Type} (E₁ E₂ H : List α) (i : α) :
    ((E₁ ++ i :: E₂) ++ H).Perm ((E₁ ++ E₂) ++ (H ++ [i])) := by
  have h₁ : (E₁ ++ i :: E₂) ++ H = E₁ ++ (i :: (E₂ ++ H)) := by simp
  have h₂ : (E₁ ++ E₂) ++ (H ++ [i]) = E₁ ++ ((E₂ ++ H) ++ [i]) := by simp
  rw [h₁, h₂]
  exact List.Perm.append_left E₁ (List.perm_append_singleton i (E₂ ++ H)).symm

/-! ### Invariant: with fresh creation times, ids never repeat anywhere -/

theorem nodup_allIds_step (s : ServerState) (now : Nat) (m : ClientMsg)
    (hs : (allIds s).Nodup)
    (hfresh : ∀ p, m = ClientMsg.newAlert p → now ∉ allIds s) :
    (allIds (stepState s now m)).Nodup := by
  cases m with
  | newAlert p =>
      have hn : now ∉ allIds s := hfresh p rfl
      have e : allIds (stepState s now (.newAlert p))
          = idsA s.alerts ++ now :: idsA s.history := by
        simp [stepState, handleMessage, allIds, idsA, mkNewAlert]
      rw [e]
      exact List.perm_middle.symm.nodup (List.nodup_cons.mpr ⟨hn, hs⟩)
  | acceptAlert p =>
      have e : allIds (stepState s now (.acceptAlert p)) = allIds s := by
        simp only [stepState, handleMessage, allIds]
        congr 1
        exact idsA_map_preserve _ (fun a => by split <;> rfl) s.alerts
      rw [e]; exact hs
  | resolveAlert p =>
      cases hf : s.alerts.find? (fun a => some a.id == p.id) with
      | none =>
          have e : stepState s now (.resolveAlert p) = s := by
            simp [stepState, handleMessage, hf]
          rw [e]; exact hs
      | some a =>
          obtain ⟨l₁, l₂, hl, _, _, he⟩ := find?_eq_some_split _ _ _ hf
          have eT : allIds (stepState s now (.resolveAlert p))
              = (idsA l₁ ++ idsA l₂) ++ (idsA s.history ++ [a.id]) := by
            simp [stepState, handleMessage, hf, he, allIds, idsA]
          have eS : allIds s = (idsA l₁ ++ a.id :: idsA l₂) ++ idsA s.history := by
            rw [allIds, hl]; simp [idsA]
          rw [eT]
          exact (perm_move_to_back (idsA l₁) (idsA l₂) (idsA s.history) a.id).nodup
            (eS ▸ hs)
  | rejectAlert p =>
      cases hf : s.alerts.find? (fun a => some a.id == p.id) with
      | none =>
          have e : stepState s now (.rejectAlert p) = s := by
            simp [stepState, handleMessage, hf]
          rw [e]; exact hs
      | some a =>
          obtain ⟨l₁, l₂, hl, _, _, he⟩ := find?_eq_some_split _ _ _ hf
          have eT : allIds (stepState s now (.rejectAlert p))
              = (idsA l₁ ++ idsA l₂) ++ (idsA s.history ++ [a.id]) := by
            simp [stepState, handleMessage, hf, he, allIds, idsA]
          have eS : allIds s = (idsA l₁ ++ a.id :: idsA l₂) ++ idsA s.history := by
            rw [allIds, hl]; simp [idsA]
          rw [eT]
          exact (perm_move_to_back (idsA l₁) (idsA l₂) (idsA s.history) a.id).nodup
            (eS ▸ hs)
  | locationUpdate p =>
      have e : allIds (stepState s now (.locationUpdate p)) = allIds s := by
        simp only [stepState, handleMessage, allIds]
        congr 1
        exact idsA_map_preserve _ (fun a => by split <;> rfl) s.alerts
      rw [e]; exact hs
  | activateDisaster dtype =>
      have e : allIds (stepState s now (.activateDisaster dtype)) = allIds s := by
        simp [stepState, handleMessage, allIds]
      rw [e]; exact hs
  | deactivateDisaster =>
      have e : allIds (stepState s now .deactivateDisaster) = allIds s := by
        simp [stepState, handleMessage, allIds]
      rw [e]; exact hs
  | updateTrafficSim p =>
      have e : allIds (stepState s now (.updateTrafficSim p)) = allIds s := by
        simp [stepState, handleMessage, allIds]
      rw [e]; exact hs
  | unparseable =>
      have e : allIds (stepState s now .unparseable) = allIds s := by
        simp [stepState, handleMessage, allIds]
      rw [e]; exact hs
  | unrecognized =>
      have e : allIds (stepState s now .unrecognized) = allIds s := by
        simp [stepState, handleMessage, allIds]
      rw [e]; exact hs

theorem reachableFresh_nodup {s : ServerState} (h : ReachableFresh s) :
    (allIds s).Nodup := by
  induction h with
  | init => simp [allIds, idsA, initState]
  | step now m _ hfresh ih => exact nodup_allIds_step _ now m ih hfresh

/-! ### Archival moves an id from the active list to history -/

theorem resolve_moves (s : ServerState) (now pid : Nat)
    (hnd : (idsA s.alerts).Nodup) (hmem : pid ∈ idsA s.alerts) :
    pid ∈ idsA (stepState s now (.resolveAlert ⟨some pid⟩)).history ∧
    pid ∉ idsA (stepState s now (.resolveAlert ⟨some pid⟩)).alerts := by
  obtain ⟨a0, ha0, hid⟩ := List.mem_map.mp hmem
  have hex : ∃ x ∈ s.alerts, (some x.id == some pid) = true := ⟨a0, ha0, by simp [hid]⟩
  obtain ⟨b, hf⟩ := Option.isSome_iff_exists.mp (List.find?_isSome.mpr hex)
  have hbid : b.id = pid := by have := List.find?_some hf; simpa using this
  obtain ⟨l₁, l₂, hl, hl₁, _, he⟩ := find?_eq_some_split _ _ _ hf
  constructor
  · have eh : (stepState s now (.resolveAlert ⟨some pid⟩)).history
        = s.history ++ [({ b with resolved := true, resolvedAt := some now, resolutionType := some "Resolved" } : Alert)] := by
      simp only [stepState, handleMessage]
      rw [hf]
    rw [eh]
    simp [idsA, hbid]
  · have ea : (stepState s now (.resolveAlert ⟨some pid⟩)).alerts = l₁ ++ l₂ := by
      simp only [stepState, handleMessage]
      rw [hf]
      exact he
    rw [ea]
    intro hmem2
    rw [idsA, List.map_append] at hmem2
    rcases List.mem_append.mp hmem2 with h1 | h2
    · obtain ⟨c, hc, hcid⟩ := List.mem_map.mp h1
      have := hl₁ c hc
      simp [hcid] at this
    · have hS : idsA s.alerts = idsA l₁ ++ b.id :: idsA l₂ := by
        rw [hl]; simp [idsA]
      rw [hS] at hnd
      have hnocc : b.id ∉ idsA l₂ :=
        (List.nodup_cons.mp (List.nodup_append.mp hnd).2.1).1
      rw [hbid] at hnocc
      exact hnocc (by simpa [idsA] using h2)

theorem reject_moves (s : ServerState) (now pid : Nat)
    (hnd : (idsA s.alerts).Nodup) (hmem : pid ∈ idsA s.alerts) :
    pid ∈ idsA (stepState s now (.rejectAlert ⟨some pid⟩)).history ∧
    pid ∉ idsA (stepState s now (.rejectAlert ⟨some pid⟩)).alerts := by
  obtain ⟨a0, ha0, hid⟩ := List.mem_map.mp hmem
  have hex : ∃ x ∈ s.alerts, (some x.id == some pid) = true := ⟨a0, ha0, by simp [hid]⟩
  obtain ⟨b, hf⟩ := Option.isSome_iff_exists.mp (List.find?_isSome.mpr hex)
  have hbid : b.id = pid := by have := List.find?_some hf; simpa using this
  obtain ⟨l₁, l₂, hl, hl₁, _, he⟩ := find?_eq_some_split _ _ _ hf
  constructor
  · have eh : (stepState s now (.rejectAlert ⟨some pid⟩)).history
        = s.history ++ [({ b with resolved := true, resolvedAt := some now, resolutionType := some "Rejected" } : Alert)] := by
      simp only [stepState, handleMessage]
      rw [hf]
    rw [eh]
    simp [idsA, hbid]
  · have ea : (stepState s now (.rejectAlert ⟨some pid⟩)).alerts = l₁ ++ l₂ := by
      simp only [stepState, handleMessage]
      rw [hf]
      exact he
    rw [ea]
    intro hmem2
    rw [idsA, List.map_append] at hmem2
    rcases List.mem_append.mp hmem2 with h1 | h2
    · obtain ⟨c, hc, hcid⟩ := List.mem_map.mp h1
      have := hl₁ c hc
      simp [hcid] at this
    · have hS : idsA s.alerts = idsA l₁ ++ b.id :: idsA l₂ := by
        rw [hl]; simp [idsA]
      rw [hS] at hnd
      have hnocc : b.id ∉ idsA l₂ :=
        (List.nodup_cons.mp (List.nodup_append.mp hnd).2.1).1
      rw [hbid] at hnocc
      exact hnocc (by simpa [idsA] using h2)

/-! ### Shared concrete inputs for witnesses and counterexamples -/

/-- A representative NEW_ALERT payload. -/
def payU1 : NewAlertPayload :=
  { urgency := some "Critical", location := some "12.97, 77.59", fullAddress := none,
    userId := some "U1", transcript := none, aiReasoning := none,
    videoData := none, videoAnalysis := none }

/-- The store after two NEW_ALERT messages are processed during the same
clock millisecond (`Date.now()` returns 5 both times): both alerts get
id 5. -/
def dupState : ServerState :=
  stepState (stepState initState 5 (.newAlert payU1)) 5 (.newAlert payU1)

/-- The store after a single NEW_ALERT at millisecond 5. -/
def oneState : ServerState :=
  stepState initState 5 (.newAlert payU1)

/-! ### Claim C1 -/

/-- Claim C1 (amended): in every reachable state of the store in which each
alert was created at a fresh clock millisecond (its id not already present),
no alert id is ever in both the active list and the history list, every id
in the store is in one of them, and RESOLVE_ALERT / REJECT_ALERT move an
active id into history atomically with its removal from the active list. -/
theorem alert_id_in_exactly_one_list (s : ServerState) (h : ReachableFresh s) :
    (∀ i : Nat, ¬ (i ∈ idsA s.alerts ∧ i ∈ idsA s.history)) ∧
    (∀ i : Nat, i ∈ allIds s → i ∈ idsA s.alerts ∨ i ∈ idsA s.history) ∧
    (∀ now pid : Nat, pid ∈ idsA s.alerts →
      (pid ∈ idsA (stepState s now (.resolveAlert ⟨some pid⟩)).history ∧
       pid ∉ idsA (stepState s now (.resolveAlert ⟨some pid⟩)).alerts) ∧
      (pid ∈ idsA (stepState s now (.rejectAlert ⟨some pid⟩)).history ∧
       pid ∉ idsA (stepState s now (.rejectAlert ⟨some pid⟩)).alerts)) := by
  have hnd := reachableFresh_nodup h
  have hndA : (idsA s.alerts).Nodup := (List.nodup_append.mp hnd).1
  have hdisj := List.disjoint_of_nodup_append hnd
  refine ⟨?_, ?_, ?_⟩
  · intro i hi
    exact hdisj hi.1 hi.2
  · intro i hi
    exact List.mem_append.mp hi
  · intro now pid hmem
    exact ⟨resolve_moves s now pid hndA hmem, reject_moves s now pid hndA hmem⟩

/-- Claim C1, counterexample to the unconditional statement: two NEW_ALERT
messages processed during the same millisecond (clock = 5 twice) create two
alerts with id 5; after RESOLVE_ALERT of id 5, id 5 is present in the
active list and in the history list at the same time. -/
theorem alert_in_both_lists_after_id_collision :
    5 ∈ idsA (stepState dupState 6 (.resolveAlert ⟨some 5⟩)).alerts ∧
    5 ∈ idsA (stepState dupState 6 (.resolveAlert ⟨some 5⟩)).history := by
  decide

/-- Claim C1, witness: the amended theorem applied to the concrete
reachable state holding one alert with id 5, then resolved at clock 6. -/
theorem alert_id_in_exactly_one_list_witness :
    5 ∈ idsA (stepState oneState 6 (.resolveAlert ⟨some 5⟩)).history ∧
    5 ∉ idsA (stepState oneState 6 (.resolveAlert ⟨some 5⟩)).alerts := by
  have hr : ReachableFresh oneState :=
    ReachableFresh.step 5 (.newAlert payU1) ReachableFresh.init
      (fun p _ => by simp [allIds, idsA, initState])
  have h := alert_id_in_exactly_one_list oneState hr
  exact (h.2.2 6 5 (by decide)).1

/-! ### Unknown-id no-ops -/

theorem map_if_no_match (pid : Option Nat) (g : Alert → Alert) (l : List Alert)
    (h : ∀ a ∈ l, some a.id ≠ pid) :
    (l.map fun a => if some a.id == pid then g a else a) = l := by
  have hcong : ∀ a ∈ l, (if some a.id == pid then g a else a) = id a := by
    intro a ha
    have hfalse : (some a.id == pid) = false := by
      cases hq : (some a.id == pid) with
      | false => rfl
      | true => exact absurd (eq_of_beq hq) (h a ha)
    simp [hfalse]
  rw [List.map_congr_left hcong, List.map_id]

theorem find?_none_of_no_match (pid : Option Nat) (l : List Alert)
    (h : ∀ a ∈ l, some a.id ≠ pid) :
    l.find? (fun a => some a.id == pid) = none :=
  List.find?_eq_none.mpr (fun a ha hq => h a ha (eq_of_beq hq))

theorem archive_twice_noop_resolve (s : ServerState) (now now' : Nat)
    (pid : Option Nat) (hnd : (idsA s.alerts).Nodup) :
    stepState (stepState s now (.resolveAlert ⟨pid⟩)) now' (.resolveAlert ⟨pid⟩)
      = stepState s now (.resolveAlert ⟨pid⟩) := by
  cases hf : s.alerts.find? (fun a => some a.id == pid) with
  | none =>
      have e1 : stepState s now (.resolveAlert ⟨pid⟩) = s := by
        simp only [stepState, handleMessage]; rw [hf]
      rw [e1]
      simp only [stepState, handleMessage]; rw [hf]
  | some b =>
      obtain ⟨l₁, l₂, hl, hl₁, hpb, he⟩ := find?_eq_some_split _ _ _ hf
      have hpid : pid = some b.id := (eq_of_beq hpb).symm
      have e1 : stepState s now (.resolveAlert ⟨pid⟩)
          = { s with alerts := l₁ ++ l₂,
                     history := s.history ++ [({ b with resolved := true, resolvedAt := some now, resolutionType := some "Resolved" } : Alert)] } := by
        simp only [stepState, handleMessage]; rw [hf, he]
      have hnone : (l₁ ++ l₂).find? (fun a => some a.id == pid) = none := by
        apply List.find?_eq_none.mpr
        intro c hc hq
        have hcid : c.id = b.id := by
          have h1 := eq_of_beq hq
          rw [hpid] at h1
          exact Option.some.inj h1
        rcases List.mem_append.mp hc with h1 | h2
        · have := hl₁ c h1
          rw [hpid] at this
          simp [hcid] at this
        · have hS : idsA s.alerts = idsA l₁ ++ b.id :: idsA l₂ := by
            rw [hl]; simp [idsA]
          rw [hS] at hnd
          have hno : b.id ∉ idsA l₂ :=
            (List.nodup_cons.mp (List.nodup_append.mp hnd).2.1).1
          apply hno
          rw [← hcid]
          exact List.mem_map_of_mem Alert.id h2
      rw [e1]
      simp only [stepState, handleMessage]
      rw [hnone]

theorem archive_twice_noop_reject (s : ServerState) (now now' : Nat)
    (pid : Option Nat) (hnd : (idsA s.alerts).Nodup) :
    stepState (stepState s now (.rejectAlert ⟨pid⟩)) now' (.rejectAlert ⟨pid⟩)
      = stepState s now (.rejectAlert ⟨pid⟩) := by
  cases hf : s.alerts.find? (fun a => some a.id == pid) with
  | none =>
      have e1 : stepState s now (.rejectAlert ⟨pid⟩) = s := by
        simp only [stepState, handleMessage]; rw [hf]
      rw [e1]
      simp only [stepState, handleMessage]; rw [hf]
  | some b =>
      obtain ⟨l₁, l₂, hl, hl₁, hpb, he⟩ := find?_eq_some_split _ _ _ hf
      have hpid : pid = some b.id := (eq_of_beq hpb).symm
      have e1 : stepState s now (.rejectAlert ⟨pid⟩)
          = { s with alerts := l₁ ++ l₂,
                     history := s.history ++ [({ b with resolved := true, resolvedAt := some now, resolutionType := some "Rejected" } : Alert)] } := by
        simp only [stepState, handleMessage]; rw [hf, he]
      have hnone : (l₁ ++ l₂).find? (fun a => some a.id == pid) = none := by
        apply List.find?_eq_none.mpr
        intro c hc hq
        have hcid : c.id = b.id := by
          have h1 := eq_of_beq hq
          rw [hpid] at h1
          exact Option.some.inj h1
        rcases List.mem_append.mp hc with h1 | h2
        · have := hl₁ c h1
          rw [hpid] at this
          simp [hcid] at this
        · have hS : idsA s.alerts = idsA l₁ ++ b.id :: idsA l₂ := by
            rw [hl]; simp [idsA]
          rw [hS] at hnd
          have hno : b.id ∉ idsA l₂ :=
            (List.nodup_cons.mp (List.nodup_append.mp hnd).2.1).1
          apply hno
          rw [← hcid]
          exact List.mem_map_of_mem Alert.id h2
      rw [e1]
      simp only [stepState, handleMessage]
      rw [hnone]

/-! ### Claim C2 -/

/-- Claim C2 (amended): processing an ACCEPT_ALERT, RESOLVE_ALERT, or
REJECT_ALERT whose payload id matches no alert in the active list leaves
the entire store unchanged; and, provided the active-list ids are
duplicate-free, a second RESOLVE_ALERT or REJECT_ALERT with the same id
after the first is a no-op (idempotent archival). -/
theorem unknown_id_message_is_noop (s : ServerState) (now : Nat) (pid : Option Nat) :
    ((∀ a ∈ s.alerts, some a.id ≠ pid) →
      stepState s now (.acceptAlert ⟨pid⟩) = s ∧
      stepState s now (.resolveAlert ⟨pid⟩) = s ∧
      stepState s now (.rejectAlert ⟨pid⟩) = s) ∧
    ((idsA s.alerts).Nodup →
      ∀ now' : Nat,
        stepState (stepState s now (.resolveAlert ⟨pid⟩)) now' (.resolveAlert ⟨pid⟩)
          = stepState s now (.resolveAlert ⟨pid⟩) ∧
        stepState (stepState s now (.rejectAlert ⟨pid⟩)) now' (.rejectAlert ⟨pid⟩)
          = stepState s now (.rejectAlert ⟨pid⟩)) := by
  constructor
  · intro h
    refine ⟨?_, ?_, ?_⟩
    · show ({ s with alerts := s.alerts.map fun a => if some a.id == pid then { a with accepted := true, acceptedAt := some now } else a } : ServerState) = s
      rw [map_if_no_match pid _ s.alerts h]
    · simp only [stepState, handleMessage]
      rw [find?_none_of_no_match pid s.alerts h]
    · simp only [stepState, handleMessage]
      rw [find?_none_of_no_match pid s.alerts h]
  · intro hnd now'
    exact ⟨archive_twice_noop_resolve s now now' pid hnd,
           archive_twice_noop_reject s now now' pid hnd⟩

/-- Claim C2, counterexample to the "second archival is always a no-op"
part: with two alerts created in the same millisecond (both id 5), the
first RESOLVE_ALERT of id 5 archives one of them, and the second
RESOLVE_ALERT of the same id archives the other — it is not a no-op. -/
theorem second_resolve_changes_state_on_dup_ids :
    (stepState dupState 6 (.resolveAlert ⟨some 5⟩)).alerts.length = 1 ∧
    (stepState (stepState dupState 6 (.resolveAlert ⟨some 5⟩)) 7 (.resolveAlert ⟨some 5⟩)).alerts.length = 0 ∧
    stepState (stepState dupState 6 (.resolveAlert ⟨some 5⟩)) 7 (.resolveAlert ⟨some 5⟩)
      ≠ stepState dupState 6 (.resolveAlert ⟨some 5⟩) := by
  decide

/-- Claim C2, witness: concrete unknown-id no-op and idempotent archival on
a store holding a single alert with id 5. -/
theorem unknown_id_message_is_noop_witness :
    stepState oneState 6 (.acceptAlert ⟨some 7⟩) = oneState ∧
    stepState (stepState oneState 6 (.resolveAlert ⟨some 5⟩)) 7 (.resolveAlert ⟨some 5⟩)
      = stepState oneState 6 (.resolveAlert ⟨some 5⟩) := by
  have h := unknown_id_message_is_noop oneState 6 (some 7)
  have h2 := unknown_id_message_is_noop oneState 6 (some 5)
  exact ⟨(h.1 (by decide)).1, (h2.2 (by decide) 7).1⟩

/-! ### Claim C3 -/

/-- Claim C3 (amended): RESOLVE_ALERT and REJECT_ALERT with a payload id
matching no active alert produce zero outbound messages, but ACCEPT_ALERT
with such an id still broadcasts a single ALERT_UPDATED message whose
payload is undefined to every open connection. -/
theorem unknown_id_outbound_messages (s : ServerState) (now : Nat)
    (pid : Option Nat) (h : ∀ a ∈ s.alerts, some a.id ≠ pid) :
    stepOut s now (.resolveAlert ⟨pid⟩) = [] ∧
    stepOut s now (.rejectAlert ⟨pid⟩) = [] ∧
    stepOut s now (.acceptAlert ⟨pid⟩) = [ServerMsg.alertUpdated none] ∧
    ∀ conns : List Conn,
      fanout conns (stepOut s now (.acceptAlert ⟨pid⟩))
        = (conns.filter (fun c => c.isOpen)).map
            (fun c => (c.cid, ServerMsg.alertUpdated none)) := by
  have haccept : stepOut s now (.acceptAlert ⟨pid⟩) = [ServerMsg.alertUpdated none] := by
    simp only [stepOut, handleMessage]
    rw [map_if_no_match pid _ s.alerts h, find?_none_of_no_match pid s.alerts h]
  refine ⟨?_, ?_, haccept, ?_⟩
  · simp only [stepOut, handleMessage]
    rw [find?_none_of_no_match pid s.alerts h]
  · simp only [stepOut, handleMessage]
    rw [find?_none_of_no_match pid s.alerts h]
  · intro conns
    rw [haccept]
    simp [fanout]

/-- Claim C3, counterexample: an ACCEPT_ALERT for id 7 on an empty store
emits a broadcast (an ALERT_UPDATED with undefined payload), which an open
client receives. -/
theorem accept_unknown_id_emits_broadcast :
    stepOut initState 0 (.acceptAlert ⟨some 7⟩) ≠ [] ∧
    fanout [⟨0, true⟩] (stepOut initState 0 (.acceptAlert ⟨some 7⟩))
      = [(0, ServerMsg.alertUpdated none)] := by
  decide

/-- Claim C3, witness: concrete silent RESOLVE and broadcast-emitting
ACCEPT for unknown id 7 on a store holding only alert id 5. -/
theorem unknown_id_outbound_messages_witness :
    stepOut oneState 6 (.resolveAlert ⟨some 7⟩) = [] ∧
    stepOut oneState 6 (.acceptAlert ⟨some 7⟩) = [ServerMsg.alertUpdated none] ∧
    fanout [⟨0, true⟩] (stepOut oneState 6 (.acceptAlert ⟨some 7⟩))
      = [(0, ServerMsg.alertUpdated none)] := by
  have h := unknown_id_outbound_messages oneState 6 (some 7) (by decide)
  refine ⟨h.1, h.2.2.1, ?_⟩
  rw [h.2.2.2 [⟨0, true⟩]]
  rfl

/-! ### Claim C4 -/

/-- Claim C4 (amended): NEW_ALERT appends exactly one alert to the active
list and touches no other collection; the alert carries the server-assigned
id and timestamp (the current clock) and accepted = false; its status is
the payload urgency whenever that urgency is present and non-empty — even
when it is not one of Critical/Medium/Low — and "Critical" when the urgency
is absent or empty; an ALERT_CREATED broadcast with the full new alert goes
to every open connection. -/
theorem new_alert_appends (s : ServerState) (now : Nat) (p : NewAlertPayload) :
    stepState s now (.newAlert p) = { s with alerts := s.alerts ++ [mkNewAlert now p] } ∧
    (stepState s now (.newAlert p)).history = s.history ∧
    (stepState s now (.newAlert p)).activeUsers = s.activeUsers ∧
    (stepState s now (.newAlert p)).disasterMode = s.disasterMode ∧
    (stepState s now (.newAlert p)).trafficSim = s.trafficSim ∧
    (mkNewAlert now p).id = now ∧
    (mkNewAlert now p).timestamp = now ∧
    (mkNewAlert now p).accepted = false ∧
    (p.urgency = none ∨ p.urgency = some "" → (mkNewAlert now p).status = "Critical") ∧
    (∀ u : String, p.urgency = some u → u ≠ "" → (mkNewAlert now p).status = u) ∧
    stepOut s now (.newAlert p) = [ServerMsg.alertCreated (mkNewAlert now p)] ∧
    ∀ conns : List Conn,
      fanout conns (stepOut s now (.newAlert p))
        = (conns.filter (fun c => c.isOpen)).map
            (fun c => (c.cid, ServerMsg.alertCreated (mkNewAlert now p))) := by
  refine ⟨rfl, rfl, rfl, rfl, rfl, rfl, rfl, rfl, ?_, ?_, rfl, ?_⟩
  · intro hu
    rcases hu with hu | hu <;> simp [mkNewAlert, jsOr, hu]
  · intro u hu hne
    simp [mkNewAlert, jsOr, hu, hne]
  · intro conns
    simp [stepOut, handleMessage, fanout]

/-- Claim C4, counterexample: a NEW_ALERT whose urgency "High" is not one
of Critical/Medium/Low is stored with status "High", not defaulted to
Critical — `urgency || "Critical"` only replaces absent or empty values. -/
theorem invalid_urgency_not_defaulted :
    (stepState initState 3 (.newAlert { payU1 with urgency := some "High" })).alerts.map Alert.status
      = ["High"] ∧
    "High" ≠ "Critical" ∧ "High" ≠ "Medium" ∧ "High" ≠ "Low" := by
  decide

/-- Claim C4, witness: a concrete NEW_ALERT with urgency "Medium" appends
one alert with status "Medium". -/
theorem new_alert_appends_witness :
    (stepState initState 3 (.newAlert { payU1 with urgency := some "Medium" })).alerts
      = [mkNewAlert 3 { payU1 with urgency := some "Medium" }] ∧
    (mkNewAlert 3 { payU1 with urgency := some "Medium" }).status = "Medium" := by
  have h := new_alert_appends initState 3 { payU1 with urgency := some "Medium" }
  constructor
  · have h1 := congrArg ServerState.alerts h.1
    simpa using h1
  · exact h.2.2.2.2.2.2.2.2.2.1 "Medium" rfl (by decide)

/-! ### Claim C5 -/

/-- Claim C5 is violated by the code: ids come from `Date.now()`, so two
NEW_ALERT messages processed during the same clock millisecond (here both
at clock 5) are assigned the same id. -/
theorem id_collision_same_millisecond :
    dupState.alerts.length = 2 ∧ idsA dupState.alerts = [5, 5] := by
  decide

/-! ### Claim C6 -/

/-- Claim C6 (amended): an inbound frame that JSON parsing rejects is
logged and dropped — the store is unchanged and no broadcast is sent (the
per-message try/catch keeps the connection open and the process alive).
A parsed message missing a required field is NOT dropped (see the
counterexample). -/
theorem unparseable_message_dropped (s : ServerState) (now : Nat) :
    stepState s now .unparseable = s ∧ stepOut s now .unparseable = [] :=
  ⟨rfl, rfl⟩

/-- Claim C6, counterexample: a LOCATION_UPDATE whose payload has no
userId is processed, not dropped: JS coerces the undefined key to the
string "undefined", so the store gains an activeUsers entry and a
USER_LOCATION_UPDATED broadcast is emitted. -/
theorem missing_userid_not_dropped :
    (stepState initState 9 (.locationUpdate ⟨none, none, none⟩)).activeUsers
      = [("undefined", { location := none, fullAddress := none, lastSeen := 9 })] ∧
    stepState initState 9 (.locationUpdate ⟨none, none, none⟩) ≠ initState ∧
    stepOut initState 9 (.locationUpdate ⟨none, none, none⟩) ≠ [] := by
  decide

/-! ### Claim C7 -/

/-- Claim C7: a new connection is sent, before anything else and to that
connection only, a single INIT_DATA snapshot whose alerts, history,
activeUsers, disasterMode and trafficSimulation are exactly the current
store contents; nothing is broadcast to the other clients. -/
theorem connection_snapshot_exact (s : ServerState) :
    handleConnection s
      = ([ServerMsg.initData s.alerts s.history s.activeUsers s.disasterMode s.trafficSim], []) ∧
    (handleConnection s).1.length = 1 ∧
    (handleConnection s).2 = [] :=
  ⟨rfl, rfl, rfl⟩

/-! ### Upsert lemmas for the activeUsers record -/

theorem userKeys_map_replace (m : List (String × ActiveUser)) (k : String) (v : ActiveUser) :
    userKeys (m.map fun e => if e.1 == k then (k, v) else e) = userKeys m := by
  unfold userKeys
  rw [List.map_map]
  apply List.map_congr_left
  intro e _
  show (if e.1 == k then (k, v) else e).1 = e.1
  by_cases hek : (e.1 == k) = true
  · rw [if_pos hek]; exact (eq_of_beq hek).symm
  · rw [if_neg hek]

theorem nodupKeys_upsert (m : List (String × ActiveUser)) (k : String) (v : ActiveUser)
    (h : (userKeys m).Nodup) : (userKeys (upsert m k v)).Nodup := by
  unfold upsert
  split
  · rw [userKeys_map_replace]; exact h
  · rename_i hany
    have hk : k ∉ userKeys m := by
      intro hkmem
      obtain ⟨e, he, hek⟩ := List.mem_map.mp hkmem
      exact hany (List.any_eq_true.mpr ⟨e, he, by simp [hek]⟩)
    unfold userKeys
    rw [List.map_append]
    refine List.nodup_append.mpr ⟨h, by simp, ?_⟩
    intro x hx hx2
    simp at hx2
    subst hx2
    exact hk hx

theorem countKey_upsert (m : List (String × ActiveUser)) (k : String) (v : ActiveUser)
    (h : (userKeys m).Nodup) : countKey (upsert m k v) k = 1 := by
  unfold upsert
  split
  · rename_i hany
    have hpred : ((fun (e : String × ActiveUser) => e.1 == k) ∘
        (fun e => if e.1 == k then (k, v) else e))
        = (fun (e : String × ActiveUser) => e.1 == k) := by
      funext e
      show ((if e.1 == k then (k, v) else e).1 == k) = (e.1 == k)
      by_cases hek : (e.1 == k) = true
      · rw [if_pos hek, hek]; simp
      · rw [if_neg hek]
    have hcount_eq : countKey (m.map fun e => if e.1 == k then (k, v) else e) k
        = countKey m k := by
      unfold countKey
      rw [List.countP_map, hpred]
    rw [hcount_eq]
    have hge : 0 < countKey m k := by
      obtain ⟨e, he, hek⟩ := List.any_eq_true.mp hany
      exact List.countP_pos_iff.mpr ⟨e, he, hek⟩
    have h1 : List.count k (userKeys m) = countKey m k := by
      unfold countKey userKeys
      rw [List.count_eq_countP, List.countP_map]
      rfl
    have hle : countKey m k ≤ 1 := by
      rw [← h1]
      exact List.nodup_iff_count_le_one.mp h k
    omega
  · rename_i hany
    unfold countKey
    rw [List.countP_append]
    have h0 : List.countP (fun e => e.1 == k) m = 0 := by
      rw [List.countP_eq_zero]
      intro e he hek
      exact hany (List.any_eq_true.mpr ⟨e, he, hek⟩)
    rw [h0]
    simp

theorem find?_map_replace (k : String) (v : ActiveUser) :
    ∀ m : List (String × ActiveUser), m.any (fun e => e.1 == k) = true →
      (m.map fun e => if e.1 == k then (k, v) else e).find? (fun e => e.1 == k)
        = some (k, v) := by
  intro m
  induction m with
  | nil => intro h; simp at h
  | cons e t ih =>
      intro hany
      rw [List.map_cons]
      by_cases hek : (e.1 == k) = true
      · rw [if_pos hek]
        exact List.find?_cons_of_pos _ (by simp)
      · rw [if_neg hek,
          @List.find?_cons_of_neg _ (fun e => e.1 == k) e
            (t.map fun e => if e.1 == k then (k, v) else e) hek]
        apply ih
        rcases List.any_eq_true.mp hany with ⟨e2, he2, hek2⟩
        rcases List.mem_cons.mp he2 with h | h
        · subst h; exact absurd hek2 hek
        · exact List.any_eq_true.mpr ⟨e2, h, hek2⟩

theorem find?_append_fresh (k : String) (v : ActiveUser) (m : List (String × ActiveUser))
    (hany : ¬ m.any (fun e => e.1 == k) = true) :
    (m ++ [(k, v)]).find? (fun e => e.1 == k) = some (k, v) := by
  rw [List.find?_append]
  have hnone : m.find? (fun e => e.1 == k) = none := by
    rw [List.find?_eq_none]
    intro e he hek
    exact hany (List.any_eq_true.mpr ⟨e, he, hek⟩)
  rw [hnone]
  simp [List.find?]

theorem lookupKey_upsert (m : List (String × ActiveUser)) (k : String) (v : ActiveUser) :
    lookupKey (upsert m k v) k = some v := by
  unfold upsert
  split
  · rename_i hany
    unfold lookupKey
    rw [find?_map_replace k v m hany]
    rfl
  · rename_i hany
    unfold lookupKey
    rw [find?_append_fresh k v m hany]
    rfl

/-! ### LOCATION_UPDATE sequences -/

/-- One LOCATION_UPDATE payload body (location, fullAddress, clock). -/
structure LocUpdate where
  location : Option String
  fullAddress : Option String
  time : Nat
deriving DecidableEq, Repr

/-- Processing a list of LOCATION_UPDATE messages for the same userId. -/
def locSeq (s : ServerState) (u : String) (ups : List LocUpdate) : ServerState :=
  ups.foldl
    (fun st up => stepState st up.time (.locationUpdate ⟨some u, up.location, up.fullAddress⟩))
    s

theorem nodupKeys_step (s : ServerState) (now : Nat) (m : ClientMsg)
    (h : (userKeys s.activeUsers).Nodup) :
    (userKeys (stepState s now m).activeUsers).Nodup := by
  cases m with
  | newAlert p => exact h
  | acceptAlert p => exact h
  | resolveAlert p =>
      cases hf : s.alerts.find? (fun a => some a.id == p.id) with
      | none =>
          have e : stepState s now (.resolveAlert p) = s := by
            simp only [stepState, handleMessage]; rw [hf]
          rw [e]; exact h
      | some b =>
          have e : (stepState s now (.resolveAlert p)).activeUsers = s.activeUsers := by
            simp only [stepState, handleMessage]; rw [hf]
          rw [e]; exact h
  | rejectAlert p =>
      cases hf : s.alerts.find? (fun a => some a.id == p.id) with
      | none =>
          have e : stepState s now (.rejectAlert p) = s := by
            simp only [stepState, handleMessage]; rw [hf]
          rw [e]; exact h
      | some b =>
          have e : (stepState s now (.rejectAlert p)).activeUsers = s.activeUsers := by
            simp only [stepState, handleMessage]; rw [hf]
          rw [e]; exact h
  | locationUpdate p => exact nodupKeys_upsert _ _ _ h
  | activateDisaster dtype => exact h
  | deactivateDisaster => exact h
  | updateTrafficSim p => exact h
  | unparseable => exact h
  | unrecognized => exact h

theorem nodupKeys_locSeq (s : ServerState) (u : String) (ups : List LocUpdate)
    (h : (userKeys s.activeUsers).Nodup) :
    (userKeys (locSeq s u ups).activeUsers).Nodup := by
  induction ups generalizing s with
  | nil => exact h
  | cons up t ih => exact ih _ (nodupKeys_step s up.time _ h)

theorem locationUpdate_effect (s : ServerState) (u : String) (loc addr : Option String)
    (now : Nat) (h : (userKeys s.activeUsers).Nodup) :
    countKey (stepState s now (.locationUpdate ⟨some u, loc, addr⟩)).activeUsers u = 1 ∧
    lookupKey (stepState s now (.locationUpdate ⟨some u, loc, addr⟩)).activeUsers u
      = some ⟨loc, addr, now⟩ ∧
    ∀ a ∈ (stepState s now (.locationUpdate ⟨some u, loc, addr⟩)).alerts,
      a.userId = u → a.location = loc ∧ a.fullAddress = addr := by
  refine ⟨countKey_upsert _ _ _ h, lookupKey_upsert _ _ _, ?_⟩
  intro a ha hu
  obtain ⟨b, hb, hba⟩ := List.mem_map.mp ha
  by_cases hm : (matchesUser b.userId (some u)) = true
  · rw [if_pos hm] at hba
    rw [← hba]
    exact ⟨rfl, rfl⟩
  · rw [if_neg hm] at hba
    subst hba
    exact absurd (by simp [matchesUser, hu]) hm

/-! ### Claim C8 -/

/-- Claim C8: after any non-empty sequence of LOCATION_UPDATE messages for
the same userId (starting from any store whose activeUsers keys are
duplicate-free, as every JS Record is), the activeUsers record holds
exactly one entry for that userId, carrying the location, fullAddress and
lastSeen of the last update only, and every active alert with that userId
has its location and fullAddress patched to the last update's values. -/
theorem location_update_upsert_last_wins (s : ServerState) (u : String)
    (ups : List LocUpdate) (h : (userKeys s.activeUsers).Nodup) (hne : ups ≠ []) :
    countKey (locSeq s u ups).activeUsers u = 1 ∧
    lookupKey (locSeq s u ups).activeUsers u
      = some ⟨(ups.getLast hne).location, (ups.getLast hne).fullAddress,
              (ups.getLast hne).time⟩ ∧
    ∀ a ∈ (locSeq s u ups).alerts, a.userId = u →
      a.location = (ups.getLast hne).location ∧
      a.fullAddress = (ups.getLast hne).fullAddress := by
  obtain ⟨t, b, hconcat⟩ : ∃ t b, ups = t ++ [b] := by
    rcases List.eq_nil_or_concat ups with h0 | ⟨t, b, h0⟩
    · exact absurd h0 hne
    · exact ⟨t, b, by simpa [List.concat_eq_append] using h0⟩
  subst hconcat
  have hlast : (t ++ [b]).getLast hne = b := List.getLast_concat t
  have e : locSeq s u (t ++ [b])
      = stepState (locSeq s u t) b.time
          (.locationUpdate ⟨some u, b.location, b.fullAddress⟩) := by
    unfold locSeq
    rw [List.foldl_append]
    rfl
  have hnd' : (userKeys (locSeq s u t).activeUsers).Nodup := nodupKeys_locSeq s u t h
  have heff := locationUpdate_effect (locSeq s u t) u b.location b.fullAddress b.time hnd'
  rw [hlast, e]
  exact heff

/-- Claim C8, witness: two updates for user U2 starting from the empty
store; the record holds one entry with the second update's values. -/
theorem location_update_upsert_last_wins_witness :
    countKey (locSeq initState "U2"
        [⟨some "1,1", none, 1⟩, ⟨some "2,2", none, 2⟩]).activeUsers "U2" = 1 ∧
    lookupKey (locSeq initState "U2"
        [⟨some "1,1", none, 1⟩, ⟨some "2,2", none, 2⟩]).activeUsers "U2"
      = some ⟨some "2,2", none, 2⟩ := by
  have h := location_update_upsert_last_wins initState "U2"
    [⟨some "1,1", none, 1⟩, ⟨some "2,2", none, 2⟩] (by decide) (by decide)
  exact ⟨h.1, h.2.1⟩

/-! ### Claim C9 -/

/-- Claim C9: LOCATION_UPDATE replaces the whole ActiveUser record rather
than merging: if the stored record for a user has a non-null fullAddress
and a later LOCATION_UPDATE for that user carries no fullAddress, the
stored record afterwards has fullAddress undefined (and lastSeen/location
from the new update), and every matching active alert likewise loses its
fullAddress. -/
theorem location_update_replaces_record (s : ServerState) (now : Nat) (u : String)
    (stored : ActiveUser) (addr0 : String) (loc' : Option String)
    (hrec : lookupKey s.activeUsers u = some stored)
    (haddr : stored.fullAddress = some addr0) :
    lookupKey (stepState s now (.locationUpdate ⟨some u, loc', none⟩)).activeUsers u
      = some ⟨loc', none, now⟩ ∧
    ∀ a ∈ (stepState s now (.locationUpdate ⟨some u, loc', none⟩)).alerts,
      a.userId = u → a.fullAddress = none ∧ a.location = loc' := by
  constructor
  · exact lookupKey_upsert _ _ _
  · intro a ha hu
    obtain ⟨b, hb, hba⟩ := List.mem_map.mp ha
    by_cases hm : (matchesUser b.userId (some u)) = true
    · rw [if_pos hm] at hba
      rw [← hba]
      exact ⟨rfl, rfl⟩
    · rw [if_neg hm] at hba
      subst hba
      exact absurd (by simp [matchesUser, hu]) hm

/-- Claim C9, witness: user U2 first reports with fullAddress "12 Main St";
a second update without fullAddress leaves the stored record with
fullAddress undefined. -/
theorem location_update_replaces_record_witness :
    lookupKey (stepState
        (stepState initState 1 (.locationUpdate ⟨some "U2", some "1,1", some "12 Main St"⟩))
        2 (.locationUpdate ⟨some "U2", some "2,2", none⟩)).activeUsers "U2"
      = some ⟨some "2,2", none, 2⟩ := by
  have h := location_update_replaces_record
    (stepState initState 1 (.locationUpdate ⟨some "U2", some "1,1", some "12 Main St"⟩))
    2 "U2" ⟨some "1,1", some "12 Main St", 1⟩ "12 Main St" (some "2,2")
    (by decide) rfl
  exact h.1

/-! ### Claim C10 helper lemmas -/

theorem find?_map_comm (f : Alert → Alert) (p : Alert → Bool)
    (hp : ∀ a, p (f a) = p a) (l : List Alert) :
    (l.map f).find? p = (l.find? p).map f := by
  induction l with
  | nil => rfl
  | cons b t ih =>
      rw [List.map_cons]
      by_cases hb : p b = true
      · rw [List.find?_cons_of_pos _ (by rw [hp]; exact hb),
          List.find?_cons_of_pos _ hb]
        rfl
      · rw [@List.find?_cons_of_neg _ p (f b) (t.map f) (by rw [hp]; exact hb),
          @List.find?_cons_of_neg _ p b t hb]
        exact ih

theorem find?_of_unique_match (l : List Alert) (a : Alert) (p : Alert → Bool)
    (hmem : a ∈ l) (hpa : p a = true)
    (huniq : ∀ b ∈ l, p b = true → b = a) :
    l.find? p = some a := by
  induction l with
  | nil => cases hmem
  | cons b t ih =>
      by_cases hb : p b = true
      · rw [List.find?_cons_of_pos _ hb, huniq b (List.mem_cons_self b t) hb]
      · rw [@List.find?_cons_of_neg _ p b t hb]
        rcases List.mem_cons.mp hmem with h | h
        · subst h; exact absurd hpa hb
        · exact ih h (fun c hc hpc => huniq c (List.mem_cons_of_mem b hc) hpc)

/-! ### Claim C10 -/

/-- Claim C10 (amended): re-sending ACCEPT_ALERT for an already-accepted
alert keeps accepted = true, replaces acceptedAt with the new clock value,
keeps every other field, and broadcasts another ALERT_UPDATED carrying the
re-stamped alert; provided the active-list ids are duplicate-free, every
alert with a different id is left unchanged (the map re-stamps every alert
sharing the target id, so with a duplicated id a second alert changes too —
see the counterexample). -/
theorem accept_restamps_accepted_alert (s : ServerState) (now : Nat) (a : Alert)
    (hmem : a ∈ s.alerts) (hacc : a.accepted = true)
    (hnd : (idsA s.alerts).Nodup) :
    (stepState s now (.acceptAlert ⟨some a.id⟩)).alerts
      = s.alerts.map (fun b =>
          if some b.id == some a.id then { b with accepted := true, acceptedAt := some now } else b) ∧
    stepOut s now (.acceptAlert ⟨some a.id⟩)
      = [ServerMsg.alertUpdated (some ({ a with accepted := true, acceptedAt := some now } : Alert))] ∧
    ({ a with accepted := true, acceptedAt := some now } : Alert)
      ∈ (stepState s now (.acceptAlert ⟨some a.id⟩)).alerts ∧
    ({ a with accepted := true, acceptedAt := some now } : Alert).accepted = true ∧
    ({ a with accepted := true, acceptedAt := some now } : Alert).acceptedAt = some now ∧
    ({ a with accepted := true, acceptedAt := some now } : Alert).id = a.id ∧
    ({ a with accepted := true, acceptedAt := some now } : Alert).timestamp = a.timestamp ∧
    ({ a with accepted := true, acceptedAt := some now } : Alert).status = a.status ∧
    ({ a with accepted := true, acceptedAt := some now } : Alert).location = a.location ∧
    ({ a with accepted := true, acceptedAt := some now } : Alert).fullAddress = a.fullAddress ∧
    ({ a with accepted := true, acceptedAt := some now } : Alert).userId = a.userId ∧
    (∀ b ∈ s.alerts, b.id ≠ a.id →
      b ∈ (stepState s now (.acceptAlert ⟨some a.id⟩)).alerts) ∧
    (∀ b ∈ (stepState s now (.acceptAlert ⟨some a.id⟩)).alerts, b.id ≠ a.id →
      b ∈ s.alerts) ∧
    (stepState s now (.acceptAlert ⟨some a.id⟩)).history = s.history ∧
    (stepState s now (.acceptAlert ⟨some a.id⟩)).activeUsers = s.activeUsers := by
  have hfa : (if some a.id == some a.id then ({ a with accepted := true, acceptedAt := some now } : Alert) else a)
      = ({ a with accepted := true, acceptedAt := some now } : Alert) := by
    simp
  have hnd2 : (s.alerts.map Alert.id).Nodup := hnd
  have hout : stepOut s now (.acceptAlert ⟨some a.id⟩)
      = [ServerMsg.alertUpdated (some ({ a with accepted := true, acceptedAt := some now } : Alert))] := by
    show [ServerMsg.alertUpdated
        ((s.alerts.map fun b =>
          if some b.id == some a.id then { b with accepted := true, acceptedAt := some now } else b).find?
          (fun b => some b.id == some a.id))] = _
    rw [find?_map_comm _ _ (fun b => by
      show (some (if some b.id == some a.id then ({ b with accepted := true, acceptedAt := some now } : Alert) else b).id == some a.id) = (some b.id == some a.id)
      split <;> rfl)]
    rw [find?_of_unique_match s.alerts a _ hmem (by simp) (fun b hb hpb => by
      have hba : b.id = a.id := Option.some.inj (eq_of_beq hpb)
      exact List.inj_on_of_nodup_map hnd2 hb hmem hba)]
    rw [Option.map_some']
    rw [hfa]
  refine ⟨rfl, hout, ?_, rfl, rfl, rfl, rfl, rfl, rfl, rfl, rfl, ?_, ?_, rfl, rfl⟩
  · exact List.mem_map.mpr ⟨a, hmem, hfa⟩
  · intro b hb hbne
    have hne2 : some b.id ≠ some a.id := fun hx => hbne (Option.some.inj hx)
    have hfalse : (some b.id == some a.id) = false := beq_eq_false_iff_ne.mpr hne2
    have hfb : (if (some b.id == some a.id) = true then
        ({ b with accepted := true, acceptedAt := some now } : Alert) else b) = b := by
      simp [hfalse]
    exact List.mem_map.mpr ⟨b, hb, hfb⟩
  · intro b hb hbne
    obtain ⟨c, hc, hcb⟩ := List.mem_map.mp hb
    have hcb2 : (if (some c.id == some a.id) = true then
        ({ c with accepted := true, acceptedAt := some now } : Alert) else c) = b := hcb
    by_cases hcid : (some c.id == some a.id) = true
    · rw [if_pos hcid] at hcb2
      have hbc : b.id = c.id := by rw [← hcb2]
      have hca : c.id = a.id := Option.some.inj (eq_of_beq hcid)
      exact absurd (hbc.trans hca) hbne
    · rw [if_neg hcid] at hcb2
      subst hcb2
      exact hc

/-- Claim C10, counterexample: with two alerts sharing id 5 (created in the
same millisecond) and both accepted at clock 6, re-sending ACCEPT_ALERT for
id 5 at clock 7 re-stamps BOTH alerts — the other alert with the same id
does not stay unchanged. -/
theorem accept_restamps_other_dup_id_alert :
    (stepState dupState 6 (.acceptAlert ⟨some 5⟩)).alerts.map Alert.acceptedAt
      = [some 6, some 6] ∧
    (stepState (stepState dupState 6 (.acceptAlert ⟨some 5⟩)) 7
        (.acceptAlert ⟨some 5⟩)).alerts.map Alert.acceptedAt
      = [some 7, some 7] ∧
    (stepState (stepState dupState 6 (.acceptAlert ⟨some 5⟩)) 7
        (.acceptAlert ⟨some 5⟩)).alerts.get? 1
      ≠ (stepState dupState 6 (.acceptAlert ⟨some 5⟩)).alerts.get? 1 := by
  decide

/-- Claim C10, witness: the single alert of id 5, accepted at clock 6, is
re-accepted at clock 7: the broadcast carries the alert re-stamped with
acceptedAt = 7. -/
theorem accept_restamps_accepted_alert_witness :
    stepOut (stepState oneState 6 (.acceptAlert ⟨some 5⟩)) 7
        (.acceptAlert ⟨some ({ mkNewAlert 5 payU1 with accepted := true, acceptedAt := some 6 } : Alert).id⟩)
      = [ServerMsg.alertUpdated
          (some ({ mkNewAlert 5 payU1 with accepted := true, acceptedAt := some 7 } : Alert))] := by
  have h := accept_restamps_accepted_alert (stepState oneState 6 (.acceptAlert ⟨some 5⟩)) 7
    ({ mkNewAlert 5 payU1 with accepted := true, acceptedAt := some 6 }) (by decide) rfl (by decide)
  exact h.2.1
